import Mathlib

/-!
Verification of the stakeholder-impact evaluation core
(`src/app/services/evaluator.py` and `src/app/models/schemas.py`).

Python floats are modelled as rationals (`ℚ`); all arithmetic in the
source is exact on the decimal literals involved.  The two impure inputs
of `evaluate` (the fresh request id and the UTC timestamp) are modelled
as explicit parameters.  Python `f"{x:.nf}"` formatting is modelled by
`formatFixed` below.
-/

namespace Dashboard

/-- `PolicyChoice` enum from `schemas.py`. -/
inductive PolicyChoice where
  | DEV_CAPITALISE_VS_EXPENSE
  | IP_FAIR_VALUE_VS_COST
deriving DecidableEq, Repr

/-- `EvaluationRequest` from `schemas.py` (field defaults included). -/
structure EvaluationRequest where
  policy_choice : PolicyChoice
  company_name : String := "SampleCo"
  currency : String := "GBP"
  revenue : ℚ := 1200
  operating_profit : ℚ := 180
  profit_after_tax : ℚ := 120
  equity : ℚ := 800
  debt : ℚ := 300
  shares_outstanding : ℚ := 100
  tax_rate : ℚ := 0.25
  covenant_max_gearing : Option ℚ := none
deriving DecidableEq, Repr

/-- The metric dictionary returned by `_calculate_metrics`: it always holds
exactly the keys `eps`, `gearing`, `bonus_estimate`, `prudence_score`. -/
structure MetricSet where
  eps : ℚ
  gearing : ℚ
  bonus_estimate : ℚ
  prudence_score : ℚ
deriving DecidableEq, Repr

/-- `StakeholderImpact` from `schemas.py`. -/
structure StakeholderImpact where
  title : String
  bullet_impacts : List String
  narrative : String
deriving DecidableEq, Repr

/-- `StakeholderOutputs` from `schemas.py`. -/
structure StakeholderOutputs where
  investors : StakeholderImpact
  lenders : StakeholderImpact
  management : StakeholderImpact
  regulators : StakeholderImpact
deriving DecidableEq, Repr

/-- `ScenarioOutput` from `schemas.py`. -/
structure ScenarioOutput where
  label : String
  headline_metrics : MetricSet
deriving DecidableEq, Repr

/-- `ResponseMetadata` from `schemas.py`. -/
structure ResponseMetadata where
  request_id : String
  timestamp_utc : String
  company_name : String
  policy_choice : PolicyChoice
  currency : String
deriving DecidableEq, Repr

/-- `EvaluationResponse` from `schemas.py`. -/
structure EvaluationResponse where
  metadata : ResponseMetadata
  base_case : ScenarioOutput
  option_a : ScenarioOutput
  option_b : ScenarioOutput
  stakeholders : StakeholderOutputs
deriving DecidableEq, Repr

/-- `_safe_divide` in `evaluator.py`. -/
def safe_divide (numerator denominator : ℚ) : ℚ :=
  if denominator = 0 then 0 else numerator / denominator

/-- `_bonus_estimate` in `evaluator.py`. -/
def bonus_estimate (eps : ℚ) : ℚ :=
  max 0.5 (min 2.5 (0.6 + eps * 0.5))

/-- `_prudence_score` in `evaluator.py`. -/
def prudence_score (gearing_percent : ℚ) : ℚ :=
  max 1.0 (min 10.0 (9.0 - gearing_percent / 15.0))

/-- `_calculate_metrics` in `evaluator.py`. -/
def calculate_metrics (profit_after_tax debt equity shares : ℚ) : MetricSet :=
  let eps := safe_divide profit_after_tax shares
  let gearing := if equity > 0 then safe_divide debt equity * 100.0 else 0.0
  { eps := eps
    gearing := gearing
    bonus_estimate := bonus_estimate eps
    prudence_score := prudence_score gearing }

/-- Decimal fixed-point rendering, modelling Python `f"{x:.nf}"`
(rounding of an exact rational to `decimals` places). -/
def formatFixed (q : ℚ) (decimals : Nat) : String :=
  let scaled : ℤ := round (q * (10 : ℚ) ^ decimals)
  let sign := if scaled < 0 then "-" else ""
  let m := scaled.natAbs
  let ip := m / 10 ^ decimals
  let fp := m % 10 ^ decimals
  let fpStr := toString fp
  let padded := String.mk (List.replicate (decimals - fpStr.length) '0') ++ fpStr
  if decimals = 0 then sign ++ toString ip
  else sign ++ toString ip ++ "." ++ padded

/-- `_format_delta` in `evaluator.py`: formats the absolute value. -/
def format_delta (value : ℚ) (decimals : Nat := 2) : String :=
  formatFixed (abs value) decimals

/-- `_policy_labels` in `evaluator.py`. -/
def policy_labels (policy_choice : PolicyChoice) : String × String :=
  if policy_choice = PolicyChoice.DEV_CAPITALISE_VS_EXPENSE then
    ("Capitalise", "Expense")
  else
    ("Fair value", "Cost")

/-- `_build_investor_impact` in `evaluator.py`. -/
def build_investor_impact (policy_choice : PolicyChoice)
    (base_metrics option_a option_b : MetricSet) : StakeholderImpact :=
  let labels := policy_labels policy_choice
  let label_a := labels.1
  let label_b := labels.2
  let eps_base := base_metrics.eps
  let eps_a := option_a.eps
  let eps_b := option_b.eps
  let delta_a := eps_a - eps_base
  let delta_b := eps_b - eps_base
  let bullets := [
    label_a ++ " moves EPS " ++
      (if delta_a > 0 then "up" else if delta_a < 0 then "down" else "flat") ++
      " by " ++ format_delta delta_a 2 ++ " vs base.",
    label_b ++ " moves EPS " ++
      (if delta_b > 0 then "up" else if delta_b < 0 then "down" else "flat") ++
      " by " ++ format_delta delta_b 2 ++ " vs base."]
  let narrative :=
    "EPS shifts from " ++ formatFixed eps_base 2 ++ " in the base case to " ++
    formatFixed eps_a 2 ++ " under " ++ label_a ++ " and " ++ formatFixed eps_b 2 ++
    " under " ++ label_b ++ ". Investors weigh earnings uplift against the " ++
    "quality and sustainability of those earnings, favoring policies backed by durable cash flows."
  { title := "Investors", bullet_impacts := bullets, narrative := narrative }

/-- `_build_lender_impact` in `evaluator.py`. -/
def build_lender_impact (policy_choice : PolicyChoice)
    (base_metrics option_a option_b : MetricSet)
    (covenant_max_gearing : Option ℚ) : StakeholderImpact :=
  let labels := policy_labels policy_choice
  let label_a := labels.1
  let label_b := labels.2
  let base_gearing := base_metrics.gearing
  let gearing_a := option_a.gearing
  let gearing_b := option_b.gearing
  let delta_a := gearing_a - base_gearing
  let delta_b := gearing_b - base_gearing
  let bullets0 := [
    label_a ++ " shifts gearing " ++
      (if delta_a < 0 then "down" else if delta_a > 0 then "up" else "flat") ++
      " by " ++ format_delta delta_a 1 ++ "pp vs base.",
    label_b ++ " shifts gearing " ++
      (if delta_b < 0 then "down" else if delta_b > 0 then "up" else "flat") ++
      " by " ++ format_delta delta_b 1 ++ "pp vs base."]
  let covenant_note : String :=
    match covenant_max_gearing with
    | none => ""
    | some limit =>
      let worst_gearing := max base_gearing (max gearing_a gearing_b)
      if worst_gearing > limit then
        "Covenant risk: gearing at " ++ formatFixed worst_gearing 1 ++
          "% exceeds " ++ formatFixed limit 1 ++ "%."
      else
        "Covenant headroom remains with gearing at " ++ formatFixed worst_gearing 1 ++
          "% vs a " ++ formatFixed limit 1 ++ "% limit."
  let bullets :=
    match covenant_max_gearing with
    | none => bullets0
    | some _ => bullets0 ++ [covenant_note]
  let narrative0 :=
    "Balance sheet leverage moves from " ++ formatFixed base_gearing 1 ++
    "% in the base case to " ++ formatFixed gearing_a 1 ++ "% under " ++ label_a ++
    " and " ++ formatFixed gearing_b 1 ++ "% under " ++ label_b ++
    ". Lenders focus on balance sheet strength and the level of covenant headroom through the cycle."
  let narrative :=
    if covenant_note = "" then narrative0 else narrative0 ++ " " ++ covenant_note
  { title := "Lenders", bullet_impacts := bullets, narrative := narrative }

/-- `_stub_management_regulators` in `evaluator.py`. -/
def stub_management_regulators (policy_choice : PolicyChoice) :
    StakeholderImpact × StakeholderImpact :=
  if policy_choice = PolicyChoice.DEV_CAPITALISE_VS_EXPENSE then
    ({ title := "Management"
       bullet_impacts := [
         "Bonus metrics improve with capitalisation.",
         "Delivery pressure increases to justify the asset."]
       narrative :=
         "Management benefits from a smoother earnings profile. " ++
         "Execution discipline becomes the key justification for the choice." },
     { title := "Regulators"
       bullet_impacts := [
         "Expect tighter documentation on development criteria.",
         "Scrutiny on impairment testing cadence."]
       narrative :=
         "Regulators focus on evidence that capitalised projects meet recognition criteria. " ++
         "They signal that disclosure quality will drive acceptance." })
  else
    ({ title := "Management"
       bullet_impacts := [
         "Valuation teams gain prominence in reporting cycles.",
         "Narrative must explain revaluation drivers."]
       narrative :=
         "Management spends more time defending valuation inputs. " ++
         "A clear story on value drivers becomes central to stakeholder trust." },
     { title := "Regulators"
       bullet_impacts := [
         "Expect robust valuation governance processes.",
         "Cost basis may reduce disclosure burden."]
       narrative :=
         "Regulators focus on valuation independence and model governance. " ++
         "They look for consistency in assumptions across reporting periods." })

/-- Result of `_build_scenarios` (the dictionary with keys
`base_case`, `option_a`, `option_b`). -/
structure Scenarios where
  base_case : MetricSet
  option_a : MetricSet
  option_b : MetricSet
deriving DecidableEq, Repr

/-- `_build_scenarios` in `evaluator.py`. -/
def build_scenarios (payload : EvaluationRequest) : Scenarios :=
  let base_metrics := calculate_metrics payload.profit_after_tax payload.debt
    payload.equity payload.shares_outstanding
  if payload.policy_choice = PolicyChoice.DEV_CAPITALISE_VS_EXPENSE then
    let development_cost := max 0.0 (payload.operating_profit * 0.2)
    let net_cost := development_cost * (1 - payload.tax_rate)
    let option_a_metrics := calculate_metrics
      (payload.profit_after_tax + net_cost) payload.debt
      (payload.equity + development_cost) payload.shares_outstanding
    let option_b_metrics := calculate_metrics
      (payload.profit_after_tax - net_cost) payload.debt
      (payload.equity - net_cost) payload.shares_outstanding
    { base_case := base_metrics
      option_a := option_a_metrics
      option_b := option_b_metrics }
  else
    let fair_value_uplift := max 0.0 (payload.equity * 0.04)
    let option_a_metrics := calculate_metrics
      (payload.profit_after_tax + fair_value_uplift * (1 - payload.tax_rate) * 0.2)
      payload.debt
      (payload.equity + fair_value_uplift * 0.5) payload.shares_outstanding
    let option_b_metrics := calculate_metrics
      (payload.profit_after_tax - fair_value_uplift * (1 - payload.tax_rate) * 0.1)
      payload.debt
      (payload.equity - fair_value_uplift * 0.2) payload.shares_outstanding
    { base_case := base_metrics
      option_a := option_a_metrics
      option_b := option_b_metrics }

/-- `evaluate` in `evaluator.py`.  The fresh uuid and the clock reading are
the two impure inputs of the Python function; they are passed explicitly. -/
def evaluate (payload : EvaluationRequest)
    (request_id timestamp : String) : EvaluationResponse :=
  let scenarios := build_scenarios payload
  let investors := build_investor_impact payload.policy_choice
    scenarios.base_case scenarios.option_a scenarios.option_b
  let lenders := build_lender_impact payload.policy_choice
    scenarios.base_case scenarios.option_a scenarios.option_b
    payload.covenant_max_gearing
  let mr := stub_management_regulators payload.policy_choice
  { metadata := {
      request_id := request_id
      timestamp_utc := timestamp
      company_name := payload.company_name
      policy_choice := payload.policy_choice
      currency := payload.currency }
    base_case := { label := "Base case", headline_metrics := scenarios.base_case }
    option_a := { label := "Option A", headline_metrics := scenarios.option_a }
    option_b := { label := "Option B", headline_metrics := scenarios.option_b }
    stakeholders := {
      investors := investors
      lenders := lenders
      management := mr.1
      regulators := mr.2 } }

/-! ### Fallibility-explicit variant

The only partial primitive the Python evaluator applies to its numeric
inputs is division, which raises `ZeroDivisionError` on a zero
denominator.  The definitions below repeat the evaluator with that
primitive made explicitly fallible (`none` = raised error), so that
totality of `evaluate` is a theorem rather than a typing accident. -/

/-- Raw Python division: `none` models a raised ZeroDivisionError. -/
def rawDiv (numerator denominator : ℚ) : Option ℚ :=
  if denominator = 0 then none else some (numerator / denominator)

/-- `_safe_divide` with the underlying division explicitly fallible. -/
def safe_divideChecked (numerator denominator : ℚ) : Option ℚ :=
  if denominator = 0 then some 0 else rawDiv numerator denominator

/-- `_calculate_metrics` with fallible division threaded through. -/
def calculate_metricsChecked (profit_after_tax debt equity shares : ℚ) :
    Option MetricSet := do
  let eps ← safe_divideChecked profit_after_tax shares
  let gearing ←
    if equity > 0 then do
      let g ← safe_divideChecked debt equity
      pure (g * 100.0)
    else pure 0.0
  pure { eps := eps
         gearing := gearing
         bonus_estimate := bonus_estimate eps
         prudence_score := prudence_score gearing }

/-- `_build_scenarios` with fallible division threaded through. -/
def build_scenariosChecked (payload : EvaluationRequest) : Option Scenarios := do
  let base_metrics ← calculate_metricsChecked payload.profit_after_tax payload.debt
    payload.equity payload.shares_outstanding
  if payload.policy_choice = PolicyChoice.DEV_CAPITALISE_VS_EXPENSE then
    let development_cost := max 0.0 (payload.operating_profit * 0.2)
    let net_cost := development_cost * (1 - payload.tax_rate)
    let option_a_metrics ← calculate_metricsChecked
      (payload.profit_after_tax + net_cost) payload.debt
      (payload.equity + development_cost) payload.shares_outstanding
    let option_b_metrics ← calculate_metricsChecked
      (payload.profit_after_tax - net_cost) payload.debt
      (payload.equity - net_cost) payload.shares_outstanding
    pure { base_case := base_metrics
           option_a := option_a_metrics
           option_b := option_b_metrics }
  else
    let fair_value_uplift := max 0.0 (payload.equity * 0.04)
    let option_a_metrics ← calculate_metricsChecked
      (payload.profit_after_tax + fair_value_uplift * (1 - payload.tax_rate) * 0.2)
      payload.debt
      (payload.equity + fair_value_uplift * 0.5) payload.shares_outstanding
    let option_b_metrics ← calculate_metricsChecked
      (payload.profit_after_tax - fair_value_uplift * (1 - payload.tax_rate) * 0.1)
      payload.debt
      (payload.equity - fair_value_uplift * 0.2) payload.shares_outstanding
    pure { base_case := base_metrics
           option_a := option_a_metrics
           option_b := option_b_metrics }

/-- `evaluate` with fallible division threaded through. -/
def evaluateChecked (payload : EvaluationRequest)
    (request_id timestamp : String) : Option EvaluationResponse := do
  let scenarios ← build_scenariosChecked payload
  let investors := build_investor_impact payload.policy_choice
    scenarios.base_case scenarios.option_a scenarios.option_b
  let lenders := build_lender_impact payload.policy_choice
    scenarios.base_case scenarios.option_a scenarios.option_b
    payload.covenant_max_gearing
  let mr := stub_management_regulators payload.policy_choice
  pure { metadata := {
           request_id := request_id
           timestamp_utc := timestamp
           company_name := payload.company_name
           policy_choice := payload.policy_choice
           currency := payload.currency }
         base_case := { label := "Base case", headline_metrics := scenarios.base_case }
         option_a := { label := "Option A", headline_metrics := scenarios.option_a }
         option_b := { label := "Option B", headline_metrics := scenarios.option_b }
         stakeholders := {
           investors := investors
           lenders := lenders
           management := mr.1
           regulators := mr.2 } }

/-! ### Concrete requests used by witnesses -/

/-- A request with the documented default financials. -/
def reqDefault : EvaluationRequest :=
  { policy_choice := PolicyChoice.DEV_CAPITALISE_VS_EXPENSE }

/-- A request with the same policy as `reqDefault` but every financial
field different. -/
def reqOtherFinancials : EvaluationRequest :=
  { policy_choice := PolicyChoice.DEV_CAPITALISE_VS_EXPENSE
    revenue := 1
    operating_profit := 2
    profit_after_tax := 3
    equity := 4
    debt := 5
    shares_outstanding := 6
    tax_rate := 0.5
    covenant_max_gearing := some 8 }

/-! ### Spec-side abbreviations used in claim statements -/

/-- Direction word as the spec states it: `delta > 0` gives "up",
`delta < 0` gives "down", otherwise "flat". -/
def dirWord (delta : ℚ) : String :=
  if delta > 0 then "up" else if delta < 0 then "down" else "flat"

/-- The covenant clause text as a function of the worst gearing and the limit. -/
def covenantNote (worst limit : ℚ) : String :=
  if worst > limit then
    "Covenant risk: gearing at " ++ formatFixed worst 1 ++
      "% exceeds " ++ formatFixed limit 1 ++ "%."
  else
    "Covenant headroom remains with gearing at " ++ formatFixed worst 1 ++
      "% vs a " ++ formatFixed limit 1 ++ "% limit."

/-! ### Helper lemmas -/

lemma append_ne_empty (s t : String) (h : s.length ≠ 0) : s ++ t ≠ "" := by
  intro hc
  have hL := congrArg String.length hc
  rw [String.length_append] at hL
  simp at hL
  exact h hL.1

lemma covenantNote_ne_empty (worst limit : ℚ) : covenantNote worst limit ≠ "" := by
  unfold covenantNote
  split
  · apply append_ne_empty
    have ha : ("Covenant risk: gearing at ").length ≠ 0 := by decide
    rw [String.length_append, String.length_append, String.length_append]
    omega
  · apply append_ne_empty
    have ha : ("Covenant headroom remains with gearing at ").length ≠ 0 := by decide
    rw [String.length_append, String.length_append, String.length_append]
    omega

lemma lender_dir_eq_dirWord (d : ℚ) :
    (if d < 0 then "down" else if d > 0 then "up" else "flat") = dirWord d := by
  unfold dirWord
  rcases lt_trichotomy d 0 with h | h | h
  · rw [if_pos h, if_neg (not_lt.mpr h.le), if_pos h]
  · subst h
    simp
  · rw [if_neg (not_lt.mpr h.le), if_pos h, if_pos h]

lemma safe_divideChecked_eq (n d : ℚ) :
    safe_divideChecked n d = some (safe_divide n d) := by
  by_cases h : d = 0 <;> simp [safe_divideChecked, safe_divide, rawDiv, h]

lemma calculate_metricsChecked_eq (a b c d : ℚ) :
    calculate_metricsChecked a b c d = some (calculate_metrics a b c d) := by
  by_cases h : c > 0 <;>
    simp [calculate_metricsChecked, calculate_metrics, safe_divideChecked_eq, h]

lemma build_scenariosChecked_eq (p : EvaluationRequest) :
    build_scenariosChecked p = some (build_scenarios p) := by
  by_cases hp : p.policy_choice = PolicyChoice.DEV_CAPITALISE_VS_EXPENSE <;>
    simp [build_scenariosChecked, build_scenarios, calculate_metricsChecked_eq, hp]

lemma lender_dir_sub_eq_dirWord (x y : ℚ) :
    (if x < y then "down" else if y < x then "up" else "flat") = dirWord (x - y) := by
  rw [← lender_dir_eq_dirWord]
  simp only [sub_neg, sub_pos, gt_iff_lt]

/-! ### Claims -/

/-- Claim C1: the Scenario Builder produces option A and option B by applying
exactly the policy's adjustment to profit_after_tax and equity before
recomputing metrics.  Under CAPITALISE_VS_EXPENSE, with
development_cost = max(0, operating_profit * 0.2) and
net_cost = development_cost * (1 - tax_rate), option A uses
profit_after_tax + net_cost and equity + development_cost, and option B uses
profit_after_tax - net_cost and equity - net_cost; under FAIR_VALUE_VS_COST,
with uplift = max(0, equity * 0.04), option A uses
profit_after_tax + uplift*(1-tax_rate)*0.2 and equity + uplift*0.5, and
option B uses profit_after_tax - uplift*(1-tax_rate)*0.1 and
equity - uplift*0.2; the base case uses the unadjusted inputs. -/
theorem C1_scenario_adjustments (p : EvaluationRequest) :
    (p.policy_choice = PolicyChoice.DEV_CAPITALISE_VS_EXPENSE →
      build_scenarios p =
        { base_case := calculate_metrics p.profit_after_tax p.debt p.equity
            p.shares_outstanding
          option_a := calculate_metrics
            (p.profit_after_tax + max 0 (p.operating_profit * 0.2) * (1 - p.tax_rate))
            p.debt
            (p.equity + max 0 (p.operating_profit * 0.2))
            p.shares_outstanding
          option_b := calculate_metrics
            (p.profit_after_tax - max 0 (p.operating_profit * 0.2) * (1 - p.tax_rate))
            p.debt
            (p.equity - max 0 (p.operating_profit * 0.2) * (1 - p.tax_rate))
            p.shares_outstanding }) ∧
    (p.policy_choice = PolicyChoice.IP_FAIR_VALUE_VS_COST →
      build_scenarios p =
        { base_case := calculate_metrics p.profit_after_tax p.debt p.equity
            p.shares_outstanding
          option_a := calculate_metrics
            (p.profit_after_tax + max 0 (p.equity * 0.04) * (1 - p.tax_rate) * 0.2)
            p.debt
            (p.equity + max 0 (p.equity * 0.04) * 0.5)
            p.shares_outstanding
          option_b := calculate_metrics
            (p.profit_after_tax - max 0 (p.equity * 0.04) * (1 - p.tax_rate) * 0.1)
            p.debt
            (p.equity - max 0 (p.equity * 0.04) * 0.2)
            p.shares_outstanding }) := by
  constructor
  · intro h
    simp [build_scenarios, h]
    norm_num
  · intro h
    simp [build_scenarios, h]
    norm_num

/-- Claim C1 witness: at the documented default financials under
CAPITALISE_VS_EXPENSE, development_cost = 36 and net_cost = 27, so option A
runs the Metric Calculator on (147, 300, 836, 100) and option B on
(93, 300, 773, 100). -/
theorem C1_scenario_adjustments_witness :
    build_scenarios { policy_choice := PolicyChoice.DEV_CAPITALISE_VS_EXPENSE } =
      { base_case := calculate_metrics 120 300 800 100
        option_a := calculate_metrics 147 300 836 100
        option_b := calculate_metrics 93 300 773 100 } :=
  by
  have h := (C1_scenario_adjustments
    { policy_choice := PolicyChoice.DEV_CAPITALISE_VS_EXPENSE }).1 rfl
  rw [h]
  norm_num

/-- Claim C2: the Metric Calculator returns
eps = profit_after_tax / shares_outstanding when shares_outstanding is
nonzero and eps = 0 when shares_outstanding = 0, and returns
gearing = (debt / equity) * 100 when equity > 0 and gearing = 0 when
equity <= 0; neither case is an error (the function returns a value). -/
theorem C2_eps_gearing (profit_after_tax debt equity shares : ℚ) :
    (shares ≠ 0 →
      (calculate_metrics profit_after_tax debt equity shares).eps =
        profit_after_tax / shares) ∧
    (shares = 0 →
      (calculate_metrics profit_after_tax debt equity shares).eps = 0) ∧
    (0 < equity →
      (calculate_metrics profit_after_tax debt equity shares).gearing =
        debt / equity * 100.0) ∧
    (equity ≤ 0 →
      (calculate_metrics profit_after_tax debt equity shares).gearing = 0) := by
  refine ⟨?_, ?_, ?_, ?_⟩
  · intro h
    simp [calculate_metrics, safe_divide, h]
  · intro h
    simp [calculate_metrics, safe_divide, h]
  · intro h
    simp [calculate_metrics, safe_divide, h, h.ne']
  · intro h
    simp [calculate_metrics, not_lt.mpr h]
    norm_num

/-- Claim C2 witness: at (120, 300, 800, 100) eps = 1.2 and gearing = 37.5;
at (120, 300, 0, 0) both zero-result branches fire. -/
theorem C2_eps_gearing_witness :
    (calculate_metrics 120 300 800 100).eps = 120 / 100 ∧
    (calculate_metrics 120 300 0 0).eps = 0 ∧
    (calculate_metrics 120 300 800 100).gearing = 300 / 800 * 100.0 ∧
    (calculate_metrics 120 300 0 0).gearing = 0 :=
  ⟨(C2_eps_gearing 120 300 800 100).1 (by norm_num),
   (C2_eps_gearing 120 300 0 0).2.1 rfl,
   (C2_eps_gearing 120 300 800 100).2.2.1 (by norm_num),
   (C2_eps_gearing 120 300 0 0).2.2.2 le_rfl⟩

/-- Claim C3: the lenders output contains a covenant bullet and a covenant
narrative clause if and only if covenant_max_gearing is present; when
present, with worst = max of the gearing of base, option A and option B, the
text states a breach exactly when worst > covenant_max_gearing (strictly),
and states headroom otherwise (including when worst equals the limit), in
both cases phrased with the worst value and the limit to 1 decimal. -/
theorem C3_covenant_clause (pc : PolicyChoice) (b oa ob : MetricSet) (limit : ℚ) :
    (build_lender_impact pc b oa ob none).bullet_impacts.length = 2 ∧
    (build_lender_impact pc b oa ob (some limit)).bullet_impacts =
      (build_lender_impact pc b oa ob none).bullet_impacts ++
        [covenantNote (max b.gearing (max oa.gearing ob.gearing)) limit] ∧
    (build_lender_impact pc b oa ob (some limit)).narrative =
      (build_lender_impact pc b oa ob none).narrative ++ " " ++
        covenantNote (max b.gearing (max oa.gearing ob.gearing)) limit := by
  have hne := covenantNote_ne_empty (max b.gearing (max oa.gearing ob.gearing)) limit
  unfold covenantNote at hne
  refine ⟨?_, ?_, ?_⟩
  · simp [build_lender_impact]
  · simp [build_lender_impact, covenantNote]
  · simp only [build_lender_impact]
    rw [if_neg hne]
    rfl

/-- Claim C4: bonus_estimate = clamp(0.6 + eps * 0.5, 0.5, 2.5) lies within
[0.5, 2.5] and prudence_score = clamp(9.0 - gearing / 15.0, 1.0, 10.0) lies
within [1.0, 10.0], for every finite eps and gearing input. -/
theorem C4_clamp_bounds (eps gearing : ℚ) :
    (0.5 ≤ bonus_estimate eps ∧ bonus_estimate eps ≤ 2.5) ∧
    (1.0 ≤ prudence_score gearing ∧ prudence_score gearing ≤ 10.0) ∧
    bonus_estimate eps = max 0.5 (min 2.5 (0.6 + eps * 0.5)) ∧
    prudence_score gearing = max 1.0 (min 10.0 (9.0 - gearing / 15.0)) := by
  refine ⟨⟨le_max_left _ _, ?_⟩, ⟨le_max_left _ _, ?_⟩, rfl, rfl⟩
  · exact max_le (by norm_num) (min_le_left _ _)
  · exact max_le (by norm_num) (min_le_left _ _)

/-- Claim C5: each investor and lender bullet's direction word is determined
by the sign of the corresponding delta (option metric minus base metric):
"up" when delta > 0, "down" when delta < 0, and "flat" when delta = 0
exactly, with the magnitude shown as the absolute value of the delta. -/
theorem C5_direction_words (pc : PolicyChoice) (b oa ob : MetricSet) (cov : Option ℚ) :
    (build_investor_impact pc b oa ob).bullet_impacts =
      [(policy_labels pc).1 ++ " moves EPS " ++ dirWord (oa.eps - b.eps) ++
         " by " ++ formatFixed (abs (oa.eps - b.eps)) 2 ++ " vs base.",
       (policy_labels pc).2 ++ " moves EPS " ++ dirWord (ob.eps - b.eps) ++
         " by " ++ formatFixed (abs (ob.eps - b.eps)) 2 ++ " vs base."] ∧
    (build_lender_impact pc b oa ob cov).bullet_impacts.take 2 =
      [(policy_labels pc).1 ++ " shifts gearing " ++ dirWord (oa.gearing - b.gearing) ++
         " by " ++ formatFixed (abs (oa.gearing - b.gearing)) 1 ++ "pp vs base.",
       (policy_labels pc).2 ++ " shifts gearing " ++ dirWord (ob.gearing - b.gearing) ++
         " by " ++ formatFixed (abs (ob.gearing - b.gearing)) 1 ++ "pp vs base."] := by
  constructor
  · simp [build_investor_impact, dirWord, format_delta]
  · cases cov <;>
      simp [build_lender_impact, format_delta, lender_dir_sub_eq_dirWord]

/-- Claim C6: two calls of evaluate on identical inputs give identical
scenario metric sets and identical stakeholder titles, bullets and
narratives; only the request_id and timestamp fields of the metadata may
differ (they are exactly the impure inputs, echoed). -/
theorem C6_idempotent (p : EvaluationRequest) (rid1 ts1 rid2 ts2 : String) :
    (evaluate p rid1 ts1).base_case = (evaluate p rid2 ts2).base_case ∧
    (evaluate p rid1 ts1).option_a = (evaluate p rid2 ts2).option_a ∧
    (evaluate p rid1 ts1).option_b = (evaluate p rid2 ts2).option_b ∧
    (evaluate p rid1 ts1).stakeholders = (evaluate p rid2 ts2).stakeholders ∧
    (evaluate p rid1 ts1).metadata.company_name =
      (evaluate p rid2 ts2).metadata.company_name ∧
    (evaluate p rid1 ts1).metadata.policy_choice =
      (evaluate p rid2 ts2).metadata.policy_choice ∧
    (evaluate p rid1 ts1).metadata.currency =
      (evaluate p rid2 ts2).metadata.currency ∧
    (evaluate p rid1 ts1).metadata.request_id = rid1 ∧
    (evaluate p rid1 ts1).metadata.timestamp_utc = ts1 :=
  ⟨rfl, rfl, rfl, rfl, rfl, rfl, rfl, rfl, rfl⟩

/-- Claim C7: two inputs sharing the same policy_choice but with arbitrary
financial fields produce identical management and regulators outputs: those
stakeholders are selected solely by policy_choice. -/
theorem C7_static_management_regulators (p q : EvaluationRequest)
    (rid1 ts1 rid2 ts2 : String)
    (h : p.policy_choice = q.policy_choice) :
    (evaluate p rid1 ts1).stakeholders.management =
      (evaluate q rid2 ts2).stakeholders.management ∧
    (evaluate p rid1 ts1).stakeholders.regulators =
      (evaluate q rid2 ts2).stakeholders.regulators := by
  refine ⟨?_, ?_⟩
  · show (stub_management_regulators p.policy_choice).1 =
      (stub_management_regulators q.policy_choice).1
    rw [h]
  · show (stub_management_regulators p.policy_choice).2 =
      (stub_management_regulators q.policy_choice).2
    rw [h]

/-- Claim C7 witness: the default request and a request with every financial
field changed (same policy) agree on management and regulators. -/
theorem C7_static_management_regulators_witness :
    reqDefault.policy_choice = reqOtherFinancials.policy_choice ∧
    (evaluate reqDefault "id1" "t1").stakeholders.management =
      (evaluate reqOtherFinancials "id2" "t2").stakeholders.management ∧
    (evaluate reqDefault "id1" "t1").stakeholders.regulators =
      (evaluate reqOtherFinancials "id2" "t2").stakeholders.regulators :=
  ⟨rfl,
   (C7_static_management_regulators reqDefault reqOtherFinancials
     "id1" "t1" "id2" "t2" rfl).1,
   (C7_static_management_regulators reqDefault reqOtherFinancials
     "id1" "t1" "id2" "t2" rfl).2⟩

/-- Claim C8: for both policies, the option A and option B scenario metrics
are computed with the input's debt and shares_outstanding unchanged; only
profit_after_tax and equity are adjusted. -/
theorem C8_debt_shares_frame (p : EvaluationRequest) :
    ∃ pat_a eq_a pat_b eq_b : ℚ,
      (build_scenarios p).option_a =
        calculate_metrics pat_a p.debt eq_a p.shares_outstanding ∧
      (build_scenarios p).option_b =
        calculate_metrics pat_b p.debt eq_b p.shares_outstanding := by
  by_cases hp : p.policy_choice = PolicyChoice.DEV_CAPITALISE_VS_EXPENSE
  · refine ⟨p.profit_after_tax + max 0.0 (p.operating_profit * 0.2) * (1 - p.tax_rate),
      p.equity + max 0.0 (p.operating_profit * 0.2),
      p.profit_after_tax - max 0.0 (p.operating_profit * 0.2) * (1 - p.tax_rate),
      p.equity - max 0.0 (p.operating_profit * 0.2) * (1 - p.tax_rate), ?_, ?_⟩ <;>
      simp [build_scenarios, hp]
  · refine ⟨p.profit_after_tax + max 0.0 (p.equity * 0.04) * (1 - p.tax_rate) * 0.2,
      p.equity + max 0.0 (p.equity * 0.04) * 0.5,
      p.profit_after_tax - max 0.0 (p.equity * 0.04) * (1 - p.tax_rate) * 0.1,
      p.equity - max 0.0 (p.equity * 0.04) * 0.2, ?_, ?_⟩ <;>
      simp [build_scenarios, hp]

/-- Claim C9: with the underlying division made explicitly fallible,
evaluate still returns a result (never `none`) on every input, equal to the
total evaluate: every numeric edge case is absorbed by the zero-substitution
guards and clamps. -/
theorem C9_total_no_failure (p : EvaluationRequest) (rid ts : String) :
    evaluateChecked p rid ts = some (evaluate p rid ts) := by
  simp [evaluateChecked, evaluate, build_scenariosChecked_eq]

/-- Claim C10: two inputs differing only in the revenue field produce
identical results apart from request_id and timestamp: revenue is never read
by any scenario, metric or narrative computation. -/
theorem C10_revenue_unused (p : EvaluationRequest) (rev : ℚ)
    (rid1 ts1 rid2 ts2 : String) :
    (evaluate { p with revenue := rev } rid1 ts1).base_case =
      (evaluate p rid2 ts2).base_case ∧
    (evaluate { p with revenue := rev } rid1 ts1).option_a =
      (evaluate p rid2 ts2).option_a ∧
    (evaluate { p with revenue := rev } rid1 ts1).option_b =
      (evaluate p rid2 ts2).option_b ∧
    (evaluate { p with revenue := rev } rid1 ts1).stakeholders =
      (evaluate p rid2 ts2).stakeholders ∧
    (evaluate { p with revenue := rev } rid1 ts1).metadata.company_name =
      (evaluate p rid2 ts2).metadata.company_name ∧
    (evaluate { p with revenue := rev } rid1 ts1).metadata.policy_choice =
      (evaluate p rid2 ts2).metadata.policy_choice ∧
    (evaluate { p with revenue := rev } rid1 ts1).metadata.currency =
      (evaluate p rid2 ts2).metadata.currency :=
  ⟨rfl, rfl, rfl, rfl, rfl, rfl, rfl⟩

end Dashboard
